import Mathlib

/-!
Verification of the price-comparison pipeline of `src/app.py`.

This file is a shallow embedding of the three-stage pipeline: scraping and
extraction (`ScraperAgent`), deal classification
(`AnalyzerAgent.analyze_deals`) and report assembly
(`ReportAgent.generate_report`), together with proofs of the specified
properties.

Modelling conventions:
* Python floats are modelled as exact rationals (`ℚ`); the Python builtin
  `round(x, n)` and fixed-point formatting round half to even, modelled by
  `roundHalfEven`.
* Timestamps (`scraped_at`, `generated_at`) come from an external clock
  collaborator and carry no pipeline logic; they are not modelled.
* The HTTP transport and the HTML parser are modelled as one injected
  function `fetch : String → Option Document`; `none` stands for any
  transport failure (timeout, DNS, HTTP error) or parse failure, which
  `scrape_store` catches.
* The `random.uniform(-50, 50)` collaborator of mock mode is injected as a
  function from the call index to the drawn rational.
* Python string operations (strip, split, replace, lower) are implemented
  over `List Char` so that concrete instances evaluate.
-/

/-- Structure `ProductData` from `app.py`: one normalized listing.  The
`scraped_at` timestamp and the unused `additional_info` dict are not
modelled. -/
structure ProductData where
  store : String
  product_name : String
  price : ℚ
  url : String
deriving DecidableEq

/-- Structure `DealAnalysis` from `app.py`, one-to-one with a
`ProductData`. -/
structure DealAnalysis where
  product : ProductData
  is_good_deal : Bool
  reasoning : String
  average_price : ℚ
  price_difference : ℚ
  deal_quality : String
deriving DecidableEq

/-- Round to the nearest integer, ties to the even integer: the rounding
mode of the Python builtin `round` and of fixed-point formatting. -/
def roundHalfEven (q : ℚ) : ℤ :=
  let f := ⌊q⌋
  if q - f < 1/2 then f
  else if 1/2 < q - f then f + 1
  else if f % 2 = 0 then f else f + 1

/-- Python `round(q, 2)`. -/
def round2 (q : ℚ) : ℚ := (roundHalfEven (q * 100) : ℚ) / 100

/-- Python one-decimal fixed-point formatting (`.1f`): half-to-even, with
the sign taken from the value (so a negative value rounding to zero prints
`-0.0`). -/
def formatFixed1 (q : ℚ) : String :=
  let m := (roundHalfEven (q * 10)).natAbs
  (if q < 0 then "-" else "") ++ toString (m / 10) ++ "." ++ toString (m % 10)

/-- Body of the per-product loop of `AnalyzerAgent.analyze_deals`
(`app.py` lines 161-191): percentage deviation from the batch average and
the four-way threshold classification. -/
def classifyProduct (avg_price : ℚ) (product : ProductData) : DealAnalysis :=
  let price_diff := product.price - avg_price
  let percent_diff := price_diff / avg_price * 100
  if percent_diff ≤ -15 then
    { product := product, is_good_deal := true,
      reasoning := "Price is " ++ formatFixed1 (abs percent_diff) ++
        "% below average - exceptional deal!",
      average_price := avg_price, price_difference := price_diff,
      deal_quality := "EXCELLENT" }
  else if percent_diff ≤ -5 then
    { product := product, is_good_deal := true,
      reasoning := "Price is " ++ formatFixed1 (abs percent_diff) ++
        "% below average - good value.",
      average_price := avg_price, price_difference := price_diff,
      deal_quality := "GOOD" }
  else if percent_diff ≤ 5 then
    { product := product, is_good_deal := false,
      reasoning := "Price is close to market average (" ++
        formatFixed1 percent_diff ++ "%).",
      average_price := avg_price, price_difference := price_diff,
      deal_quality := "AVERAGE" }
  else
    { product := product, is_good_deal := false,
      reasoning := "Price is " ++ formatFixed1 percent_diff ++
        "% above average - not recommended.",
      average_price := avg_price, price_difference := price_diff,
      deal_quality := "POOR" }

/-- Method `AnalyzerAgent.analyze_deals` (`app.py` lines 146-196): empty
input short-circuits to the empty output; otherwise the batch average is
computed once and every product is classified against it, in input order. -/
def analyze_deals (products : List ProductData) : List DealAnalysis :=
  match products with
  | [] => []
  | _ :: _ =>
    let prices := products.map (·.price)
    let avg_price := prices.sum / (prices.length : ℚ)
    products.map (classifyProduct avg_price)

/-- Formula of the spec (section 4.3):
`percent_delta = 100 * (price - average_price) / average_price`. -/
def percent_delta (price avg_price : ℚ) : ℚ := 100 * (price - avg_price) / avg_price

/-- Batch mean used by the analyzer. -/
def batchAverage (products : List ProductData) : ℚ :=
  (products.map (·.price)).sum / ((products.map (·.price)).length : ℚ)

/-- Python `str.strip` (and `get_text(strip=True)` of a text node),
implemented over the char list because core `String.trim` is opaque to the
kernel. -/
def pyStrip (s : String) : String :=
  (((s.toList.dropWhile Char.isWhitespace).reverse.dropWhile
    Char.isWhitespace).reverse).asString

/-- Python `str.split(sep)` for a one-character separator, keeping empty
segments. -/
def splitOnChar (sep : Char) : List Char → List (List Char)
  | [] => [[]]
  | x :: xs =>
    if x = sep then [] :: splitOnChar sep xs
    else
      match splitOnChar sep xs with
      | [] => [[x]]
      | seg :: segs => (x :: seg) :: segs

/-- Python `str.replace` specialised to the call on `app.py` line 79:
remove every occurrence of `www.`, left to right. -/
def stripWWW : List Char → List Char
  | 'w' :: 'w' :: 'w' :: '.' :: rest => stripWWW rest
  | c :: rest => c :: stripWWW rest
  | [] => []

/-- Python `str.lower()` over the char list. -/
def pyLower (s : String) : String := (s.toList.map Char.toLower).asString

/-- A DOM element, presented through the only accessor the Extractor uses:
its visible text. -/
structure Element where
  text : String
deriving DecidableEq

/-- Call `element.get_text(strip=True)`. -/
def getTextStrip (e : Element) : String := pyStrip e.text

/-- One candidate container, presented through the three lookups
`extract_product_info` performs on it (`app.py` lines 101-107): the first
heading of level 3, 4 or 2; the first anchor whose class matches
`title|name`; and the first descendant whose class matches `price`. -/
structure Container where
  headingElem : Option Element
  titleAnchorElem : Option Element
  priceElem : Option Element
deriving DecidableEq

/-- One fetched and parsed document, presented through the three `find_all`
queries of `scrape_store` (`app.py` lines 82-86). -/
structure Document where
  divProductItem : List Container
  articles : List Container
  liProductItem : List Container

/-- Falsy-`or` chaining of `app.py` lines 82-86: Python `or` returns the
first truthy (non-empty) query result, so only the first rule that yields
any match is used. -/
def product_containers (doc : Document) : List Container :=
  if doc.divProductItem ≠ [] then doc.divProductItem
  else if doc.articles ≠ [] then doc.articles
  else doc.liProductItem

/-- Character class `[\d,]` of the price pattern. -/
def isDigitOrComma (c : Char) : Bool := c.isDigit || c = ','

/-- Match of the regex `[\d,]+\.?\d*` at a position whose first character
is a digit or comma: a maximal run of digits and commas, then an optional
dot followed by a maximal run of digits. -/
def numericRunAt (cs : List Char) : List Char :=
  let r1 := cs.takeWhile isDigitOrComma
  match cs.drop r1.length with
  | '.' :: rest => r1 ++ '.' :: rest.takeWhile Char.isDigit
  | _ => r1

/-- Call `re.search` with pattern `[\d,]+\.?\d*` (`app.py` line 114): the
leftmost match, if any. -/
def searchNumericRun : List Char → Option (List Char)
  | [] => none
  | c :: cs =>
    if isDigitOrComma c then some (numericRunAt (c :: cs))
    else searchNumericRun cs

/-- Value of a digit list read as a decimal natural number. -/
def digitsToNat (cs : List Char) : ℕ :=
  cs.foldl (fun acc c => 10 * acc + (c.toNat - '0'.toNat)) 0

/-- Python `float` on the comma-stripped numeric run (`app.py` line 116).
Such a run consists of digits and at most one dot; `float` succeeds iff at
least one digit is present (`float` of the empty string or of a lone dot
raises `ValueError`, which the bare `except` swallows into a discard). -/
def pyFloat (cs : List Char) : Option ℚ :=
  if cs.any Char.isDigit then
    let intPart := cs.takeWhile Char.isDigit
    let fracPart :=
      match cs.drop intPart.length with
      | '.' :: fs => fs
      | _ => []
    some (mkRat (digitsToNat intPart * 10 ^ fracPart.length +
      digitsToNat fracPart : ℕ) (10 ^ fracPart.length))
  else none

/-- Method `ScraperAgent.extract_product_info` (`app.py` lines 98-121): the
name element is the first heading, else the first title or name anchor; the
price element is the first price-classed descendant; both must exist, and
the price text must contain a parsable numeric run, or the candidate is
discarded (`None`). -/
def extract_product_info (container : Container) (store_name : String)
    (source_url : String) : Option ProductData :=
  match container.headingElem.or container.titleAnchorElem,
      container.priceElem with
  | some name_elem, some price_elem =>
    let name := getTextStrip name_elem
    let price_text := getTextStrip price_elem
    match searchNumericRun price_text.toList with
    | some run =>
      match pyFloat (run.filter (fun c => c ≠ ',')) with
      | some price => some ⟨store_name, name, price, source_url⟩
      | none => none
    | none => none
  | _, _ => none

/-- Expression `url.split('/')[2].replace('www.', '')` of `app.py` line 79;
`none` when the URL has fewer than three slash-separated parts (the
`IndexError` is caught by the surrounding `except`, yielding zero
records). -/
def store_name_of_url (url : String) : Option String :=
  match (splitOnChar '/' url.toList).get? 2 with
  | some part => some (stripWWW part).asString
  | none => none

/-- Method `ScraperAgent.scrape_store` (`app.py` lines 70-96).  The fetch
and parse collaborators are injected as `fetch`; `fetch url = none` models
any transport or parse exception, which the `except` turns into zero
records.  At most the first 10 candidate containers are processed
(`product_containers[:10]`, line 88), in candidate order. -/
def scrape_store (fetch : String → Option Document) (url : String)
    (product_query : String) : List ProductData :=
  match fetch url with
  | none => []
  | some soup =>
    match store_name_of_url url with
    | none => []
    | some store_name =>
      ((product_containers soup).take 10).filterMap
        (fun container => extract_product_info container store_name url)

/-- Method `ScraperAgent.scrape_multiple_stores` (`app.py` lines 54-68):
each URL is processed in input order and its records are appended to the
cumulative result; a failing source contributes zero records and never
aborts the loop. -/
def scrape_multiple_stores (fetch : String → Option Document)
    (urls : List String) (product_query : String) : List ProductData :=
  match urls with
  | [] => []
  | url :: rest =>
    scrape_store fetch url product_query ++
      scrape_multiple_stores fetch rest product_query

/-- Fixed retailer label list of mock mode (`app.py` line 126). -/
def mock_stores : List String := ["Amazon", "Walmart", "BestBuy", "Target", "eBay"]

/-- Fixed base price of mock mode (`app.py` line 127). -/
def base_price : ℚ := 299.99

/-- Method `ScraperAgent.get_mock_data` (`app.py` lines 123-141), with the
`random.uniform(-50, 50)` collaborator injected as `uniform`, indexed by
loop iteration: one record per fixed retailer label, price
`round(299.99 + draw, 2)`.  The definition takes no fetch collaborator, so
mock mode cannot invoke the network. -/
def get_mock_data (product_name : String) (uniform : ℕ → ℚ) :
    List ProductData :=
  mock_stores.enum.map (fun e =>
    ⟨e.2, product_name, round2 (base_price + uniform e.1),
      "https://" ++ pyLower e.2 ++ ".com/product"⟩)

/-- Sort key of `analyses.sort(key=lambda a: a.product.price)`
(`app.py` line 205). -/
def priceLE (a b : DealAnalysis) : Prop := a.product.price ≤ b.product.price

instance : DecidableRel priceLE :=
  fun a b => inferInstanceAs (Decidable (a.product.price ≤ b.product.price))

instance : IsTotal DealAnalysis priceLE := ⟨fun a b => le_total _ _⟩

instance : IsTrans DealAnalysis priceLE := ⟨fun _ _ _ => le_trans⟩

/-- Python `list.sort` is a stable ascending sort by the key; modelled by
insertion sort, which is stable for a total preorder. -/
def sortAnalyses (analyses : List DealAnalysis) : List DealAnalysis :=
  List.insertionSort priceLE analyses

/-- Data embedded in the summary f-string of `ReportAgent.generate_report`
(`app.py` lines 211-213): listing count, good-deal count, and the price and
store of the cheapest entry. -/
structure Summary where
  total : ℕ
  good_deals : ℕ
  best_price : ℚ
  best_store : String
deriving DecidableEq

/-- Structure `Report` from `app.py`; `generated_at` comes from the
external clock and is not modelled. -/
structure Report where
  analyses : List DealAnalysis
  summary : Summary
deriving DecidableEq

/-- Method `ReportAgent.generate_report` (`app.py` lines 201-217).  On an
empty input, `best_deal` is `None` and the summary f-string raises
`AttributeError`, modelled as `Except.error`; otherwise the report holds
the price-sorted analyses and the summary data. -/
def generate_report (analyses : List DealAnalysis) : Except String Report :=
  match sortAnalyses analyses with
  | [] => Except.error "AttributeError: NoneType object has no attribute product"
  | best_deal :: rest =>
    Except.ok
      { analyses := best_deal :: rest,
        summary :=
          { total := (best_deal :: rest).length,
            good_deals := ((best_deal :: rest).filter (·.is_good_deal)).length,
            best_price := best_deal.product.price,
            best_store := best_deal.product.store } }

/-- The list object of the caller after `ReportAgent.generate_report`
returns: `analyses.sort(key=lambda a: a.product.price)` (`app.py` line 205)
sorts the list of the caller in place, so after the call the caller
observes the sorted list, which the returned report also aliases. -/
def generate_report_callerList (analyses : List DealAnalysis) : List DealAnalysis :=
  sortAnalyses analyses

/-- Boolean price-equality predicate used to state sort stability. -/
def hasPrice (v : ℚ) (x : DealAnalysis) : Bool := x.product.price = v

instance : DecidableEq (Except String Report) := fun a b =>
  match a, b with
  | Except.ok x, Except.ok y =>
    if h : x = y then isTrue (by rw [h])
    else isFalse (fun he => h (Except.ok.inj he))
  | Except.error x, Except.error y =>
    if h : x = y then isTrue (by rw [h])
    else isFalse (fun he => h (Except.error.inj he))
  | Except.ok _, Except.error _ => isFalse (fun he => Except.noConfusion he)
  | Except.error _, Except.ok _ => isFalse (fun he => Except.noConfusion he)

/-- Concrete single-element batch used to witness the classification
theorem. -/
def pW : ProductData :=
  { store := "Amazon", product_name := "Widget", price := 100, url := "https://a" }

/-- A candidate whose name element text is whitespace only and whose price
element text is `$0.00`. -/
def badContainer : Container := ⟨some ⟨" "⟩, none, some ⟨"$0.00"⟩⟩

/-- A candidate with a positive price text, used to witness the amended
extraction theorem. -/
def goodContainer : Container := ⟨some ⟨" Laptop X "⟩, none, some ⟨"$1,299.50"⟩⟩

/-- Transport stub that fails on every URL. -/
def fetchNone : String → Option Document := fun _ => none

/-- Injected randomness drawing 0 on every call. -/
def zeroDraw : ℕ → ℚ := fun _ => 0

/-- First mock record under the all-zero draw. -/
def mockHead : ProductData :=
  ⟨"Amazon", "Laptop", round2 (base_price + zeroDraw 0),
    "https://" ++ pyLower "Amazon" ++ ".com/product"⟩

/-- Concrete one-element analyses list witnessing the summary theorem. -/
def dW : DealAnalysis :=
  ⟨⟨"BestBuy", "Widget", 250, "https://b"⟩, true, "r", 300, -50, "GOOD"⟩

/-- Analyses with the shape of the stability scenario of the spec
(`[299.99, 249.99, 349.99, 299.99 (store B)]`), scaled to the integral
prices `[300, 250, 350, 300 (store B)]` so the kernel can evaluate them. -/
def mkAnalysis (store : String) (price : ℚ) : DealAnalysis :=
  ⟨⟨store, "Laptop", price, "https://s"⟩, false, "r", 300, 0, "AVERAGE"⟩

/-- Input order of the stability scenario. -/
def stabilityScenario : List DealAnalysis :=
  [mkAnalysis "A" 300, mkAnalysis "C" 250, mkAnalysis "D" 350,
   mkAnalysis "B" 300]

/-- Expected report of the stability scenario: ties in original order. -/
def stabilityReport : Report :=
  ⟨[mkAnalysis "C" 250, mkAnalysis "A" 300,
    mkAnalysis "B" 300, mkAnalysis "D" 350],
   ⟨4, 0, 250, "C"⟩⟩

/-- Two analyses out of price order, showing the in-place sort. -/
def dOutOfOrderHi : DealAnalysis :=
  ⟨⟨"A", "x", 2, "u"⟩, false, "", 0, 0, "AVERAGE"⟩

/-- Companion of `dOutOfOrderHi` with the lower price. -/
def dOutOfOrderLo : DealAnalysis :=
  ⟨⟨"B", "x", 1, "u"⟩, false, "", 0, 0, "AVERAGE"⟩

/-- Report produced from `[dOutOfOrderHi, dOutOfOrderLo]`. -/
def rOutOfOrder : Report :=
  ⟨[dOutOfOrderLo, dOutOfOrderHi], ⟨2, 0, 1, "B"⟩⟩

theorem classifyProduct_product_eq (avg_price : ℚ) (p : ProductData) :
    (classifyProduct avg_price p).product = p := by
  unfold classifyProduct
  dsimp only
  split_ifs <;> rfl

theorem classifyProduct_average_eq (avg_price : ℚ) (p : ProductData) :
    (classifyProduct avg_price p).average_price = avg_price := by
  unfold classifyProduct
  dsimp only
  split_ifs <;> rfl

theorem classifyProduct_thresholds (avg_price : ℚ) (p : ProductData) :
    (percent_delta p.price avg_price ≤ -15 →
      (classifyProduct avg_price p).is_good_deal = true ∧
      (classifyProduct avg_price p).deal_quality = "EXCELLENT") ∧
    (-15 < percent_delta p.price avg_price ∧ percent_delta p.price avg_price ≤ -5 →
      (classifyProduct avg_price p).is_good_deal = true ∧
      (classifyProduct avg_price p).deal_quality = "GOOD") ∧
    (-5 < percent_delta p.price avg_price ∧ percent_delta p.price avg_price ≤ 5 →
      (classifyProduct avg_price p).is_good_deal = false ∧
      (classifyProduct avg_price p).deal_quality = "AVERAGE") ∧
    (5 < percent_delta p.price avg_price →
      (classifyProduct avg_price p).is_good_deal = false ∧
      (classifyProduct avg_price p).deal_quality = "POOR") := by
  have hpd : (p.price - avg_price) / avg_price * 100 = percent_delta p.price avg_price := by
    unfold percent_delta; ring
  unfold classifyProduct
  dsimp only
  rw [hpd]
  split_ifs with h1 h2 h3 <;>
    refine ⟨fun h => ?_, fun h => ?_, fun h => ?_, fun h => ?_⟩ <;>
    first
      | exact ⟨rfl, rfl⟩
      | (exfalso; obtain ⟨ha, hb⟩ := h; linarith)
      | (exfalso; linarith)

theorem map_product_classify (avg : ℚ) (l : List ProductData) :
    (l.map (classifyProduct avg)).map (·.product) = l := by
  induction l with
  | nil => rfl
  | cons p ps ih => simp [classifyProduct_product_eq, ih]

theorem analyze_deals_eq_map (products : List ProductData) (h : products ≠ []) :
    analyze_deals products = products.map (classifyProduct (batchAverage products)) := by
  match products, h with
  | p :: ps, _ => rfl

/-- C4: the empty product sequence yields the empty analysis sequence: the
empty-batch case of `analyze_deals` short-circuits (by returning the empty
accumulator) before the average — and hence any division — is computed. -/
theorem analyze_deals_empty_batch : analyze_deals [] = [] := rfl

/-- C1: for every non-empty batch of positive-priced products,
`analyze_deals` uses the arithmetic mean of the prices as `average_price`,
keeps the products in input order, and classifies each product by the
closed thresholds on
`percent_delta = 100 * (price - average_price) / average_price`:
at most -15 gives `(true, EXCELLENT)`; above -15 up to -5 gives
`(true, GOOD)`; above -5 up to 5 gives `(false, AVERAGE)`; above 5 gives
`(false, POOR)` — so each boundary falls on the at-most side; and a
single-element batch has `percent_delta = 0` and is classified
`(false, AVERAGE)`. -/
theorem analyze_deals_classification_spec (products : List ProductData)
    (hne : products ≠ []) (hpos : ∀ p ∈ products, 0 < p.price) :
    ((analyze_deals products).map (·.product) = products) ∧
    (∀ a ∈ analyze_deals products,
      a.average_price = batchAverage products ∧
      (percent_delta a.product.price (batchAverage products) ≤ -15 →
        a.is_good_deal = true ∧ a.deal_quality = "EXCELLENT") ∧
      (-15 < percent_delta a.product.price (batchAverage products) ∧
          percent_delta a.product.price (batchAverage products) ≤ -5 →
        a.is_good_deal = true ∧ a.deal_quality = "GOOD") ∧
      (-5 < percent_delta a.product.price (batchAverage products) ∧
          percent_delta a.product.price (batchAverage products) ≤ 5 →
        a.is_good_deal = false ∧ a.deal_quality = "AVERAGE") ∧
      (5 < percent_delta a.product.price (batchAverage products) →
        a.is_good_deal = false ∧ a.deal_quality = "POOR")) ∧
    (∀ p : ProductData, 0 < p.price →
      ∃ a, analyze_deals [p] = [a] ∧
        percent_delta p.price a.average_price = 0 ∧
        a.is_good_deal = false ∧ a.deal_quality = "AVERAGE") := by
  refine ⟨?_, ?_, ?_⟩
  · rw [analyze_deals_eq_map _ hne]
    exact map_product_classify _ _
  · intro a ha
    rw [analyze_deals_eq_map _ hne] at ha
    obtain ⟨p, hp, rfl⟩ := List.mem_map.mp ha
    constructor
    · exact classifyProduct_average_eq _ _
    · simp only [classifyProduct_product_eq]
      exact classifyProduct_thresholds _ _
  · intro p hp
    refine ⟨classifyProduct (batchAverage [p]) p, ?_, ?_, ?_⟩
    · rfl
    · rw [classifyProduct_average_eq]
      have havg : batchAverage [p] = p.price := by
        unfold batchAverage; simp
      rw [havg]
      unfold percent_delta
      simp
    · have havg : batchAverage [p] = p.price := by
        unfold batchAverage; simp
      rw [havg]
      unfold classifyProduct
      dsimp only
      rw [sub_self, zero_div, zero_mul]
      norm_num

/-- Witness for C1 at the concrete one-element batch `[pW]`. -/
theorem analyze_deals_classification_spec_witness :
    ([pW] ≠ []) ∧ 0 < pW.price ∧
      (analyze_deals [pW]).map (·.product) = [pW] :=
  ⟨by simp, by norm_num [pW],
    (analyze_deals_classification_spec [pW] (by simp)
      (by intro p hp; rw [List.mem_singleton] at hp; subst hp; norm_num [pW])).1⟩

/-- C8: `analyze_deals` is a pure, deterministic function of its input
batch (the embedding has no hidden state: `AnalyzerAgent` reads and writes
no attribute): the same batch always yields the same output, the output is
parallel to the input in order, and every analysis of one batch carries the
same `average_price`, the batch mean. -/
theorem analyze_deals_pure (products : List ProductData) :
    analyze_deals products = analyze_deals products ∧
    (analyze_deals products).map (·.product) = products ∧
    (analyze_deals products).map (·.average_price) =
      products.map (fun _ => batchAverage products) := by
  refine ⟨rfl, ?_, ?_⟩
  · match products with
    | [] => rfl
    | p :: ps =>
      rw [analyze_deals_eq_map _ (by simp)]
      exact map_product_classify _ _
  · match products with
    | [] => rfl
    | p :: ps =>
      rw [analyze_deals_eq_map _ (by simp), List.map_map]
      refine List.map_congr_left ?_
      intro a _
      exact classifyProduct_average_eq _ _

theorem pyFloat_nonneg (cs : List Char) (q : ℚ) (h : pyFloat cs = some q) :
    0 ≤ q := by
  unfold pyFloat at h
  split_ifs at h
  injection h with h
  subst h
  rw [Rat.mkRat_eq_div]
  positivity

/-- Counterexample to C2: `extract_product_info` checks only that a name
ELEMENT exists, never that its trimmed text is non-empty, and it parses the
run `0.00` to the number `0.0` without any positivity check — so the
whitespace-titled, `$0.00`-priced candidate yields a record with empty
title and price `0` instead of being discarded. -/
theorem extract_product_info_accepts_zero_and_empty :
    extract_product_info badContainer "Store" "https://s" =
      some ⟨"Store", "", 0, "https://s"⟩ := by
  decide

/-- C2 amended: `extract_product_info` discards a candidate lacking a name
element or a price element, or whose price text contains no parsable
numeric run; every record it returns carries the given store and URL and a
NON-NEGATIVE price — but a zero price (e.g. from price text `$0.00`) and an
empty title (name element whose text trims to empty) are NOT discarded. -/
theorem extract_product_info_spec (container : Container)
    (store_name source_url : String) :
    (∀ p, extract_product_info container store_name source_url = some p →
      0 ≤ p.price ∧ p.store = store_name ∧ p.url = source_url ∧
        p.product_name = getTextStrip
          ((container.headingElem.or container.titleAnchorElem).getD ⟨""⟩)) ∧
    (container.priceElem = none →
      extract_product_info container store_name source_url = none) ∧
    (container.headingElem = none → container.titleAnchorElem = none →
      extract_product_info container store_name source_url = none) ∧
    (∀ pe, container.priceElem = some pe →
      searchNumericRun (getTextStrip pe).toList = none →
      extract_product_info container store_name source_url = none) ∧
    (∀ pe run, container.priceElem = some pe →
      searchNumericRun (getTextStrip pe).toList = some run →
      pyFloat (run.filter (fun c => c ≠ ',')) = none →
      extract_product_info container store_name source_url = none) := by
  refine ⟨?_, ?_, ?_, ?_, ?_⟩
  · intro p hp
    unfold extract_product_info at hp
    split at hp
    · rename_i ne pe hor hpe
      dsimp only at hp
      split at hp
      · split at hp
        · rename_i price hprice
          injection hp with hp
          subst hp
          refine ⟨pyFloat_nonneg _ _ hprice, rfl, rfl, ?_⟩
          rw [hor]
          rfl
        · simp at hp
      · simp at hp
    · simp at hp
  · intro hpr
    rcases h1 : container.headingElem.or container.titleAnchorElem with _ | ne <;>
      simp [extract_product_info, h1, hpr]
  · intro hh ht
    have h1 : container.headingElem.or container.titleAnchorElem = none := by
      rw [hh, ht]; rfl
    simp [extract_product_info, h1]
  · intro pe hpe hrun
    have hrun' : searchNumericRun (getTextStrip pe).data = none := hrun
    rcases h1 : container.headingElem.or container.titleAnchorElem with _ | ne <;>
      simp [extract_product_info, h1, hpe, hrun']
  · intro pe run hpe hrun hfl
    have hrun' : searchNumericRun (getTextStrip pe).data = some run := hrun
    simp only [ne_eq, decide_not] at hfl
    rcases h1 : container.headingElem.or container.titleAnchorElem with _ | ne <;>
      simp [extract_product_info, h1, hpe, hrun', hfl]

/-- Witness for the amended C2 at `goodContainer`: the extracted record has
price `1299.50 ≥ 0`, the given store and URL, and the trimmed title. -/
theorem extract_product_info_spec_witness :
    extract_product_info goodContainer "Store" "https://s" =
        some ⟨"Store", "Laptop X", mkRat 129950 100, "https://s"⟩ ∧
      (0 : ℚ) ≤ (⟨"Store", "Laptop X", mkRat 129950 100, "https://s"⟩ :
          ProductData).price :=
  ⟨by decide,
    ((extract_product_info_spec goodContainer "Store" "https://s").1
      ⟨"Store", "Laptop X", mkRat 129950 100, "https://s"⟩ (by decide)).1⟩

/-- C7: the Collector processes sources in input order with no
short-circuiting: the cumulative result is the concatenation, in source
order, of the successfully extracted records of each source in candidate
order; a source whose fetch fails (or whose URL breaks store-name
derivation) contributes zero records while later sources are still
processed; and at most the first 10 candidate containers are processed per
document. -/
theorem scrape_multiple_stores_spec (fetch : String → Option Document)
    (urls vs : List String) (product_query : String) :
    scrape_multiple_stores fetch urls product_query =
        urls.flatMap (fun url => scrape_store fetch url product_query) ∧
    scrape_multiple_stores fetch (urls ++ vs) product_query =
        scrape_multiple_stores fetch urls product_query ++
          scrape_multiple_stores fetch vs product_query ∧
    (∀ url, fetch url = none → scrape_store fetch url product_query = []) ∧
    (∀ url, (scrape_store fetch url product_query).length ≤ 10) ∧
    (∀ url soup store_name, fetch url = some soup →
      store_name_of_url url = some store_name →
      scrape_store fetch url product_query =
        ((product_containers soup).take 10).filterMap
          (fun c => extract_product_info c store_name url)) := by
  refine ⟨?_, ?_, ?_, ?_, ?_⟩
  · induction urls with
    | nil => rfl
    | cons u us ih => simp [scrape_multiple_stores, ih]
  · induction urls with
    | nil => rfl
    | cons u us ih => simp [scrape_multiple_stores, ih]
  · intro url hf
    simp [scrape_store, hf]
  · intro url
    unfold scrape_store
    split
    · simp
    · split
      · simp
      · exact le_trans (List.length_filterMap_le _ _)
          (by rw [List.length_take]; exact min_le_left _ _)
  · intro url soup sn hf hsn
    simp [scrape_store, hf, hsn]

/-- Witness for C7: with an always-failing transport, a failed source
contributes zero records. -/
theorem scrape_multiple_stores_spec_witness :
    fetchNone "https://www.amazon.com/p" = none ∧
      scrape_store fetchNone "https://www.amazon.com/p" "laptop" = [] :=
  ⟨rfl, (scrape_multiple_stores_spec fetchNone [] [] "laptop").2.2.1
    "https://www.amazon.com/p" rfl⟩

theorem floor_le_roundHalfEven (q : ℚ) : ⌊q⌋ ≤ roundHalfEven q := by
  unfold roundHalfEven
  dsimp only
  split_ifs <;> omega

theorem roundHalfEven_le_ceil (q : ℚ) : roundHalfEven q ≤ ⌈q⌉ := by
  have hup : ¬(q - (⌊q⌋ : ℚ) < 1/2) → ⌊q⌋ + 1 ≤ ⌈q⌉ := by
    intro h1
    have hlt : ((⌊q⌋ : ℤ) : ℚ) < q := by
      push_neg at h1
      linarith
    have := Int.lt_ceil.mpr hlt
    omega
  unfold roundHalfEven
  dsimp only
  split_ifs with h1 h2 h3
  · exact Int.floor_le_ceil q
  · exact hup h1
  · exact Int.floor_le_ceil q
  · exact hup h1

theorem le_round2 (a : ℤ) (q : ℚ) (h : (a : ℚ) ≤ q * 100) :
    (a : ℚ) / 100 ≤ round2 q := by
  have h1 : a ≤ ⌊q * 100⌋ := Int.le_floor.mpr h
  have h2 : ⌊q * 100⌋ ≤ roundHalfEven (q * 100) := floor_le_roundHalfEven _
  have h3 : (a : ℚ) ≤ (roundHalfEven (q * 100) : ℚ) := by
    exact_mod_cast le_trans h1 h2
  unfold round2
  linarith

theorem round2_le (a : ℤ) (q : ℚ) (h : q * 100 ≤ (a : ℚ)) :
    round2 q ≤ (a : ℚ) / 100 := by
  have h1 : ⌈q * 100⌉ ≤ a := Int.ceil_le.mpr h
  have h2 : roundHalfEven (q * 100) ≤ ⌈q * 100⌉ := roundHalfEven_le_ceil _
  have h3 : (roundHalfEven (q * 100) : ℚ) ≤ (a : ℚ) := by
    exact_mod_cast le_trans h2 h1
  unfold round2
  linarith

theorem round2_base_bounds (v : ℚ) (h1 : -50 ≤ v) (h2 : v ≤ 50) :
    (249.99 : ℚ) ≤ round2 (base_price + v) ∧
      round2 (base_price + v) ≤ 349.99 ∧ 0 < round2 (base_price + v) := by
  have hb : base_price = (299.99 : ℚ) := rfl
  have hlo : ((24999 : ℤ) : ℚ) ≤ (base_price + v) * 100 := by
    rw [hb]
    push_cast
    nlinarith
  have hhi : (base_price + v) * 100 ≤ ((34999 : ℤ) : ℚ) := by
    rw [hb]
    push_cast
    nlinarith
  have l1 := le_round2 24999 (base_price + v) hlo
  have l2 := round2_le 34999 (base_price + v) hhi
  norm_num at l1 l2
  exact ⟨by linarith, by linarith, by linarith⟩

/-- C9: for every query and every injected source of randomness whose draws
lie in `[-50, 50]` (the range of `random.uniform(-50, 50)`), mock mode
produces exactly one record per entry of the fixed 5-retailer label list,
in order; each price is `round(299.99 + draw, 2)`, which equals the fixed
base price `299.99` plus an offset in the symmetric range `[-50, 50]`; and
`get_mock_data` takes no fetch collaborator, so it can never invoke the
network transport. -/
theorem get_mock_data_spec (product_name : String) (uniform : ℕ → ℚ)
    (h : ∀ i, -50 ≤ uniform i ∧ uniform i ≤ 50) :
    (get_mock_data product_name uniform).map (·.store) = mock_stores ∧
    mock_stores.length = 5 ∧
    base_price = 299.99 ∧
    (get_mock_data product_name uniform).map (·.price) =
      (List.range 5).map (fun i => round2 (base_price + uniform i)) ∧
    (∀ p ∈ get_mock_data product_name uniform,
      ∃ off, -50 ≤ off ∧ off ≤ 50 ∧ p.price = base_price + off) := by
  refine ⟨rfl, rfl, rfl, rfl, ?_⟩
  intro p hp
  unfold get_mock_data at hp
  obtain ⟨e, he, rfl⟩ := List.mem_map.mp hp
  obtain ⟨hb1, hb2, hb3⟩ := round2_base_bounds (uniform e.1) (h e.1).1 (h e.1).2
  have hb : base_price = (299.99 : ℚ) := rfl
  rw [hb] at hb1 hb2 hb3 ⊢
  refine ⟨round2 ((299.99 : ℚ) + uniform e.1) - 299.99, ?_, ?_, ?_⟩
  · linarith
  · linarith
  · show round2 ((299.99 : ℚ) + uniform e.1) = _
    ring

/-- Witness for C9 at the all-zero draw. -/
theorem get_mock_data_spec_witness :
    (-50 ≤ zeroDraw 0 ∧ zeroDraw 0 ≤ 50) ∧
      (get_mock_data "Laptop" zeroDraw).map (·.store) = mock_stores :=
  ⟨by norm_num [zeroDraw],
    (get_mock_data_spec "Laptop" zeroDraw
      (fun i => by norm_num [zeroDraw])).1⟩

/-- C10: every mock record price lies in the closed interval
`[249.99, 349.99]` and is hence strictly positive: mock mode preserves the
`price > 0` invariant of the data model for every in-range draw. -/
theorem get_mock_data_price_invariant (product_name : String)
    (uniform : ℕ → ℚ) (h : ∀ i, -50 ≤ uniform i ∧ uniform i ≤ 50) :
    ∀ p ∈ get_mock_data product_name uniform,
      (249.99 : ℚ) ≤ p.price ∧ p.price ≤ 349.99 ∧ 0 < p.price := by
  intro p hp
  unfold get_mock_data at hp
  obtain ⟨e, he, rfl⟩ := List.mem_map.mp hp
  exact round2_base_bounds (uniform e.1) (h e.1).1 (h e.1).2

/-- Witness for C10 at the first record of the all-zero draw. -/
theorem get_mock_data_price_invariant_witness :
    mockHead ∈ get_mock_data "Laptop" zeroDraw ∧
      ((249.99 : ℚ) ≤ mockHead.price ∧ mockHead.price ≤ 349.99 ∧
        0 < mockHead.price) :=
  ⟨List.mem_cons_self _ _,
    get_mock_data_price_invariant "Laptop" zeroDraw
      (fun i => by norm_num [zeroDraw]) mockHead (List.mem_cons_self _ _)⟩

theorem filter_orderedInsert_price (v : ℚ) (a : DealAnalysis)
    (l : List DealAnalysis) :
    (List.orderedInsert priceLE a l).filter (hasPrice v) =
      ((a :: l).filter (hasPrice v)) := by
  induction l with
  | nil => rfl
  | cons b t ih =>
    by_cases hab : priceLE a b
    · simp [List.orderedInsert, hab]
    · have h1 : List.orderedInsert priceLE a (b :: t) =
          b :: List.orderedInsert priceLE a t := by
        simp [List.orderedInsert, hab]
      rw [h1]
      by_cases ha : a.product.price = v
      · have hb : b.product.price ≠ v := fun hb => hab (le_of_eq (ha.trans hb.symm))
        simp [List.filter_cons, hasPrice, ha, hb, ih, -List.orderedInsert]
      · simp [List.filter_cons, hasPrice, ha, ih, -List.orderedInsert]

theorem filter_sortAnalyses_price (v : ℚ) (l : List DealAnalysis) :
    (sortAnalyses l).filter (hasPrice v) = l.filter (hasPrice v) := by
  induction l with
  | nil => rfl
  | cons a t ih =>
    unfold sortAnalyses at ih ⊢
    show (List.orderedInsert priceLE a (List.insertionSort priceLE t)).filter
        (hasPrice v) = _
    rw [filter_orderedInsert_price, List.filter_cons, ih, List.filter_cons]

theorem sortAnalyses_perm (l : List DealAnalysis) : (sortAnalyses l).Perm l :=
  List.perm_insertionSort priceLE l

theorem sortAnalyses_sorted (l : List DealAnalysis) :
    List.Sorted priceLE (sortAnalyses l) :=
  List.sorted_insertionSort priceLE l

theorem generate_report_analyses_eq (l : List DealAnalysis) (r : Report)
    (h : generate_report l = Except.ok r) : r.analyses = sortAnalyses l := by
  unfold generate_report at h
  rcases hs : sortAnalyses l with _ | ⟨b, t⟩ <;> rw [hs] at h
  · exact absurd h (by simp)
  · cases h
    rfl

/-- C3: `generate_report` on an empty analyses sequence fails by reporting
an error to the caller (the `AttributeError` raised while building the
summary propagates; no defaulted report is produced); on every non-empty
sequence it succeeds and its summary states the total listing count, the
count of analyses with `is_good_deal` true, and the price and store of the
cheapest entry. -/
theorem generate_report_empty_and_summary :
    (∃ e, generate_report [] = Except.error e) ∧
    ∀ l : List DealAnalysis, l ≠ [] →
      ∃ r, generate_report l = Except.ok r ∧
        r.summary.total = l.length ∧
        r.summary.good_deals = (l.filter (·.is_good_deal)).length ∧
        (∃ a ∈ l, r.summary.best_price = a.product.price ∧
          r.summary.best_store = a.product.store) ∧
        ∀ a ∈ l, r.summary.best_price ≤ a.product.price := by
  constructor
  · exact ⟨_, rfl⟩
  · intro l hl
    have hperm : (sortAnalyses l).Perm l := sortAnalyses_perm l
    have hsorted : List.Sorted priceLE (sortAnalyses l) := sortAnalyses_sorted l
    rcases hs : sortAnalyses l with _ | ⟨b, t⟩
    · rw [hs] at hperm
      exact absurd hperm.symm.eq_nil hl
    · rw [hs] at hperm hsorted
      refine ⟨⟨b :: t, ⟨(b :: t).length,
        ((b :: t).filter (·.is_good_deal)).length,
        b.product.price, b.product.store⟩⟩, ?_, ?_, ?_, ?_, ?_⟩
      · unfold generate_report
        rw [hs]
      · exact hperm.length_eq
      · exact (hperm.filter (·.is_good_deal)).length_eq
      · exact ⟨b, hperm.mem_iff.mp (List.mem_cons_self b t), rfl, rfl⟩
      · intro a ha
        rcases List.mem_cons.mp (hperm.mem_iff.mpr ha) with h | h
        · subst h
          exact le_refl _
        · exact List.rel_of_sorted_cons hsorted a h

/-- Witness for C3 at the concrete non-empty list `[dW]`. -/
theorem generate_report_empty_and_summary_witness :
    ([dW] : List DealAnalysis) ≠ [] ∧
      ∃ r, generate_report [dW] = Except.ok r ∧
        r.summary.total = [dW].length ∧
        r.summary.good_deals = ([dW].filter (·.is_good_deal)).length ∧
        (∃ a ∈ [dW], r.summary.best_price = a.product.price ∧
          r.summary.best_store = a.product.store) ∧
        ∀ a ∈ [dW], r.summary.best_price ≤ a.product.price :=
  ⟨by simp, generate_report_empty_and_summary.2 [dW] (by simp)⟩

/-- C6: for every analyses sequence accepted by `generate_report`, the
report field `analyses` is the input stably sorted ascending by
`product.price`: it is a permutation of the input, sorted by price, and for
every price value the entries with that price keep their original relative
order. -/
theorem generate_report_stable_sort (l : List DealAnalysis) (r : Report)
    (h : generate_report l = Except.ok r) :
    r.analyses.Perm l ∧ List.Sorted priceLE r.analyses ∧
      ∀ v : ℚ, r.analyses.filter (hasPrice v) = l.filter (hasPrice v) := by
  rw [generate_report_analyses_eq l r h]
  exact ⟨sortAnalyses_perm l, sortAnalyses_sorted l,
    fun v => filter_sortAnalyses_price v l⟩

/-- Witness for C6 at the four-element tie scenario: the 300 entry of store
`A` stays before the one of store `B`. -/
theorem generate_report_stable_sort_witness :
    generate_report stabilityScenario = Except.ok stabilityReport ∧
      (stabilityReport.analyses.Perm stabilityScenario ∧
        List.Sorted priceLE stabilityReport.analyses ∧
        ∀ v : ℚ, stabilityReport.analyses.filter (hasPrice v) =
          stabilityScenario.filter (hasPrice v)) :=
  ⟨by decide,
    generate_report_stable_sort stabilityScenario stabilityReport (by decide)⟩

/-- Counterexample to C5: `generate_report` DOES mutate the sequence of the
caller: `analyses.sort(...)` (`app.py` line 205) reorders the list of the
caller in place, so after the call the two-element list of the caller is no
longer in its original order. -/
theorem generate_report_mutates_caller :
    generate_report_callerList [dOutOfOrderHi, dOutOfOrderLo] ≠
      [dOutOfOrderHi, dOutOfOrderLo] := by
  decide

/-- C5 amended: the Scraper and Analyzer stages build fresh output
sequences and no `ProductData` value is altered by any stage, but
`ReportAgent.generate_report` sorts the analyses list of the caller in
place: after the call the sequence of the caller is the stable price-sorted
permutation of the original (same analyses, same product records, new
order), and the returned report aliases that same sorted sequence. -/
theorem generate_report_inplace_sort (l : List DealAnalysis) :
    (generate_report_callerList l).Perm l ∧
    ((generate_report_callerList l).map (·.product)).Perm (l.map (·.product)) ∧
    ∀ r, generate_report l = Except.ok r →
      r.analyses = generate_report_callerList l := by
  refine ⟨sortAnalyses_perm l, (sortAnalyses_perm l).map _, ?_⟩
  intro r h
  exact generate_report_analyses_eq l r h

/-- Witness for the amended C5 at the concrete two-element list. -/
theorem generate_report_inplace_sort_witness :
    generate_report [dOutOfOrderHi, dOutOfOrderLo] = Except.ok rOutOfOrder ∧
      rOutOfOrder.analyses =
        generate_report_callerList [dOutOfOrderHi, dOutOfOrderLo] :=
  ⟨by decide,
    (generate_report_inplace_sort [dOutOfOrderHi, dOutOfOrderLo]).2.2 _
      (by decide)⟩
